import Mathlib

/-!
Shallow embedding of the img-to-uzdz job-lifecycle orchestration subsystem:
the status relay (`src/api/status_processor.py`), the webhook delivery
processor, the work queue (`src/api/queue.py`), the credits ledger
(`src/api/credits.py`) and the worker pipeline driver
(`src/worker/worker_v2.py`). Machine values (Python Decimal / float credit
amounts) are modelled as `Rat`; timestamps as `Nat`; Python `None` as
`Option.none`; Python truthiness of optional values is made explicit.
-/

/-- Job status strings used by the system. -/
inductive JStatus
  | queued
  | running
  | exporting
  | completed
  | failed
  | canceled
  deriving DecidableEq, Repr

/-- Python truthiness of an optional Decimal/float: `None` and `0` are falsy. -/
def ratTruthy : Option Rat → Bool
  | none => false
  | some x => x != 0

/-- Python truthiness of an optional string: `None` and `""` are falsy. -/
def strTruthy : Option String → Bool
  | none => false
  | some s => s.length != 0

/-- Python truthiness of an optional list: `None` and `[]` are falsy. -/
def listTruthy {α : Type} : Option (List α) → Bool
  | none => false
  | some l => !l.isEmpty

/-- `settings.CREDITS_FAST_JOB` (src/api/settings.py, default 1.0). -/
def CREDITS_FAST_JOB : Rat := 1

/-- `settings.CREDITS_HIGH_JOB` (src/api/settings.py, default 2.5). -/
def CREDITS_HIGH_JOB : Rat := 5/2

/-- A `Job` row of the durable job store (src/api/models.py fields used by
the relay and worker). -/
structure Job where
  id : Nat
  status : JStatus
  quality : String
  target_formats : List String
  org_id : Option Nat
  estimate_credits : Option Rat
  cost_credits : Option Rat
  started_at : Option Nat
  completed_at : Option Nat
  error_message : Option String
  webhook_url : Option String
  deriving DecidableEq, Repr

/-- One output record carried inside a status event
(`{"format", "storage_key", "size_bytes"}`). -/
structure OutputData where
  format : String
  storage_key : String
  size_bytes : Nat
  deriving DecidableEq, Repr

/-- A `JobOutput` row of the durable job store. -/
structure JobOutput where
  job_id : Nat
  format : String
  storage_key : String
  size_bytes : Nat
  deriving DecidableEq, Repr

/-- A `UsageEvent` row; `details_status` embeds `details["status"]`. -/
structure UsageEvent where
  job_id : Nat
  event_type : String
  gpu_minutes : Rat
  details_status : JStatus
  deriving DecidableEq, Repr

/-- A `CreditsLedger` row: signed delta, reason, optional job and payment refs. -/
structure CreditsLedger where
  org_id : Nat
  delta : Rat
  reason : String
  job_id : Option Nat
  stripe_tx_id : Option String
  deriving DecidableEq, Repr

/-- The durable store state touched by the status relay. -/
structure DB where
  jobs : List Job
  outputs : List JobOutput
  usage_events : List UsageEvent
  ledger : List CreditsLedger
  deriving DecidableEq, Repr

/-- A worker status event (`update_data` dict); an `Option` field is `none`
exactly when the corresponding key is absent from the dict. -/
structure StatusUpdate where
  job_id : Nat
  status : JStatus
  worker_id : Option String
  error_message : Option String
  outputs : Option (List OutputData)
  gpu_minutes : Option Rat
  deriving DecidableEq, Repr

/-- `db.query(Job).filter(Job.id == job_id).first()`. -/
def findJob (db : DB) (jid : Nat) : Option Job :=
  db.jobs.find? (fun j => j.id == jid)

namespace StatusProcessor

/-- `StatusProcessor._calculate_job_cost`: base cost by quality tier, times
1.2 when "usdz" is among the requested formats. -/
def calculate_job_cost (job : Job) : Rat :=
  let base := if job.quality == "fast" then CREDITS_FAST_JOB else CREDITS_HIGH_JOB
  if job.target_formats.contains "usdz" then base * (6/5) else base

/-- `StatusProcessor._debit_credits`: returns the ledger rows added (early
return when `job.cost_credits` is falsy, else one negative-delta entry). -/
def debit_credits (job : Job) : List CreditsLedger :=
  if ratTruthy job.cost_credits then
    [{ org_id := job.org_id.getD 0, delta := -(job.cost_credits.getD 0),
       reason := "job_charge", job_id := some job.id, stripe_tx_id := none }]
  else []

/-- `StatusProcessor._refund_credits`: returns the ledger rows added (early
return when `job.estimate_credits` is falsy, else one positive-delta entry). -/
def refund_credits (job : Job) : List CreditsLedger :=
  if ratTruthy job.estimate_credits then
    [{ org_id := job.org_id.getD 0, delta := job.estimate_credits.getD 0,
       reason := "refund", job_id := some job.id, stripe_tx_id := none }]
  else []

/-- The rows produced for one job by one pass of
`StatusProcessor._process_single_update` (after the job was found). -/
structure UpdateEffect where
  job : Job
  new_outputs : List JobOutput
  new_usage : List UsageEvent
  new_ledger : List CreditsLedger
  deriving DecidableEq, Repr

/-- The body of `StatusProcessor._process_single_update` once the job was
loaded: unconditionally overwrites `job.status`, sets timestamps, copies the
error message, builds `JobOutput` rows when the event is `completed` and
carries outputs, and when the event carries `gpu_minutes` records a
`UsageEvent` and — on `completed` — writes `cost_credits` and debits; on
`failed` with a truthy org and estimate it refunds. -/
def apply_update (job0 : Job) (u : StatusUpdate) (now : Nat) : UpdateEffect :=
  let j1 := { job0 with status := u.status }
  let j2 := if u.status == JStatus.running && j1.started_at == none
            then { j1 with started_at := some now } else j1
  let j3 := if u.status == JStatus.completed || u.status == JStatus.failed
               || u.status == JStatus.canceled
            then { j2 with completed_at := some now } else j2
  let j4 := match u.error_message with
            | some m => { j3 with error_message := some m }
            | none => j3
  let newOutputs :=
    match u.outputs with
    | some outs =>
      if u.status == JStatus.completed then
        outs.map (fun o =>
          { job_id := j4.id, format := o.format,
            storage_key := o.storage_key, size_bytes := o.size_bytes })
      else []
    | none => []
  let gpuStep :=
    match u.gpu_minutes with
    | some g =>
      let usage : UsageEvent :=
        { job_id := j4.id, event_type := "gpu_minutes",
          gpu_minutes := g, details_status := u.status }
      if u.status == JStatus.completed then
        let j5 := { j4 with cost_credits := some (calculate_job_cost j4) }
        let debits := if j5.org_id.isSome then debit_credits j5 else []
        (j5, [usage], debits)
      else (j4, [usage], [])
    | none => (j4, [], [])
  let j6 := gpuStep.1
  let refunds :=
    if u.status == JStatus.failed && j6.org_id.isSome
       && ratTruthy j6.estimate_credits
    then refund_credits j6 else []
  { job := j6, new_outputs := newOutputs, new_usage := gpuStep.2.1,
    new_ledger := gpuStep.2.2 ++ refunds }

/-- `StatusProcessor._process_single_update`: load the job by id (discard the
event when absent), apply the update, and commit the new rows. -/
def process_single_update (db : DB) (u : StatusUpdate) (now : Nat) : DB :=
  match findJob db u.job_id with
  | none => db
  | some job0 =>
    let eff := apply_update job0 u now
    { jobs := db.jobs.map (fun x => if x.id == job0.id then eff.job else x),
      outputs := db.outputs ++ eff.new_outputs,
      usage_events := db.usage_events ++ eff.new_usage,
      ledger := db.ledger ++ eff.new_ledger }

end StatusProcessor

namespace CreditsManager

/-- `CreditsManager.get_balance`: sum of the `delta` column over the
organization's ledger rows (src/api/credits.py). -/
def get_balance (ledger : List CreditsLedger) (org : Nat) : Rat :=
  ((ledger.filter (fun e => e.org_id == org)).map (fun e => e.delta)).sum

/-- `CreditsManager.add_credits`: unconditionally appends one entry with
`delta = amount` and reports success (src/api/credits.py). -/
def add_credits (ledger : List CreditsLedger) (org : Nat) (amount : Rat)
    (reason : String) (tx : Option String) : Bool × List CreditsLedger :=
  (true, ledger ++ [{ org_id := org, delta := amount, reason := reason,
                      job_id := none, stripe_tx_id := tx }])

/-- `CreditsManager.debit_credits`: refuses (returns `false`, appends
nothing) when the balance is below `amount`, else appends one entry with
`delta = -amount` (src/api/credits.py). -/
def debit_credits (ledger : List CreditsLedger) (org : Nat) (amount : Rat)
    (reason : String) (jid : Option Nat) : Bool × List CreditsLedger :=
  if get_balance ledger org < amount then (false, ledger)
  else (true, ledger ++ [{ org_id := org, delta := -amount, reason := reason,
                           job_id := jid, stripe_tx_id := none }])

end CreditsManager

namespace JobQueue

/-- State of one lane class: the Redis sorted set `queue:{q}:priority`
(member payload with numeric score) and the Redis list `queue:{q}` (newest
element at the head, since `enqueue` uses LPUSH and `dequeue` uses BRPOP). -/
structure QueueState where
  pq : List (String × Int)
  fifo : List String
  deriving DecidableEq, Repr

/-- `zrevrange key 0 0`: the entry with the greatest score, ties broken by
the reverse lexicographic member order (Redis sorted-set semantics). -/
def zrevTop : List (String × Int) → Option (String × Int)
  | [] => none
  | e :: es =>
    match zrevTop es with
    | none => some e
    | some b => some (if b.2 < e.2 || (b.2 == e.2 && b.1 < e.1) then e else b)

/-- `JobQueue.dequeue_job`: pop the top of the priority sorted set when it is
non-empty (ZREVRANGE then ZREM); otherwise a blocking BRPOP on the FIFO list
with the caller-supplied timeout, yielding `none` when the timeout expires
with the list still empty (src/api/queue.py). -/
def dequeue_job (st : QueueState) (timeout : Nat) : Option String × QueueState :=
  match zrevTop st.pq with
  | some e => (some e.1, { st with pq := st.pq.filter (fun x => x.1 != e.1) })
  | none =>
    match st.fifo.getLast? with
    | some p => (some p, { st with fifo := st.fifo.dropLast })
    | none => (none, st)

end JobQueue

/-- A `WebhookEvent` row as used by the delivery processor. -/
structure WebhookEv where
  attempts : Nat
  delivered_at : Option Nat
  deriving DecidableEq, Repr

/-- Outcome of one HTTP POST: a response with a status code, or a transport
error (`requests.exceptions.RequestException`). -/
inductive HttpResult
  | response (code : Nat)
  | transportError
  deriving DecidableEq, Repr

namespace WebhookDeliveryProcessor

/-- The delivery-success test of `_deliver_webhook`: the code marks the event
delivered exactly on `response.status_code == 200`; a transport error never
succeeds (src/api/status_processor.py line 294). -/
def webhookSuccess : HttpResult → Bool
  | HttpResult.response code => code == 200
  | HttpResult.transportError => false

/-- `WebhookDeliveryProcessor._handle_failed_delivery`: with
`max_attempts = 3`, when `attempts < 3` schedule a retry after
`min(300, 60 * 2 ** (attempts - 1))` seconds, else abandon (no retry). -/
def handle_failed_delivery (w : WebhookEv) : Option Nat :=
  if w.attempts < 3 then some (min 300 (60 * 2 ^ (w.attempts - 1))) else none

/-- Result of one pass of `_deliver_webhook`: the updated event row and the
retry delay scheduled, if any. -/
structure DeliveryOutcome where
  event : WebhookEv
  retry_delay : Option Nat
  deriving DecidableEq, Repr

/-- `WebhookDeliveryProcessor._deliver_webhook`: increment `attempts`, issue
the POST; on status 200 set `delivered_at` and stop, otherwise run the failed
delivery handler (src/api/status_processor.py). -/
def deliver_webhook (w : WebhookEv) (r : HttpResult) (now : Nat) : DeliveryOutcome :=
  let w1 := { w with attempts := w.attempts + 1 }
  if webhookSuccess r then
    { event := { w1 with delivered_at := some now }, retry_delay := none }
  else
    { event := w1, retry_delay := handle_failed_delivery w1 }

end WebhookDeliveryProcessor

/-- Environment oracle for one run of the worker pipeline: outcomes of the
external stage invocations of `worker_v2.py` (S3 downloads, image checks,
`ns-process-data`, `ns-train`, `ns-export`/conversions, S3 uploads). -/
structure PipelineEnv where
  download_ok : Bool
  validate_ok : Bool
  process_data_ok : Bool
  train_ok : Bool
  gpu_minutes : Rat
  metadata_exists : Bool
  config_found : Bool
  glb_export_ok : Bool
  usdz_convert_ok : Bool
  feature_usdz : Bool
  upload_ok : String → Bool
  size_of : String → Nat

namespace NerfstudioPipeline

/-- `NerfstudioPipeline.export_models`: returns the formats successfully
exported. When no trained config is found the raised exception is caught and
`[]` is returned. GLB is attempted when requested; USDZ is attempted only
when requested and `FEATURE_USDZ` is on, and its `_export_usdz` first runs
the GLB export and then converts, so it succeeds only when both do
(src/worker/worker_v2.py). -/
def export_models (target_formats : List String) (env : PipelineEnv) : List String :=
  if env.config_found then
    (if target_formats.contains "glb" && env.glb_export_ok then ["glb"] else [])
    ++ (if target_formats.contains "usdz" && env.feature_usdz
           && env.glb_export_ok && env.usdz_convert_ok then ["usdz"] else [])
  else []

end NerfstudioPipeline

namespace JobProcessor

/-- `JobProcessor._update_job_status`: builds the status-event dict; the
`error_message`, `outputs` and `gpu_minutes` keys are included only when the
corresponding argument is truthy (so `gpu_minutes = 0` is omitted). -/
def update_job_status (jid : Nat) (st : JStatus) (wid : String)
    (err : Option String) (outs : Option (List OutputData))
    (gpu : Option Rat) : StatusUpdate :=
  { job_id := jid, status := st, worker_id := some wid,
    error_message := if strTruthy err then err else none,
    outputs := if listTruthy outs then outs else none,
    gpu_minutes := if ratTruthy gpu then gpu else none }

/-- The S3 key built at upload time in `JobProcessor.process_job`; the job
descriptor carries no `org_id` key, so `job_data.get('org_id', 'anon')` is
always `"anon"`. -/
def s3OutputKey (jid : Nat) (fmt : String) : String :=
  "org/anon/jobs/" ++ toString jid ++ "/outputs/model." ++ fmt

/-- `JobProcessor.process_job`: the sequence of status events the worker
pushes for one job. It reports `running`, runs stages 1-4 (any failure
raises and is converted into a `failed` event with an error message), then
reports `exporting`, exports, uploads each exported format independently,
and ends with `completed` carrying the uploaded outputs and the gpu minutes
read from the training metadata — or `failed` when no format was exported or
none uploaded. -/
def process_job (jid : Nat) (wid : String) (target_formats : List String)
    (env : PipelineEnv) : List StatusUpdate :=
  let ev := update_job_status jid
  let fail := fun (msg : String) =>
    ev JStatus.failed wid (some ("Job processing failed: " ++ msg)) none none
  let running := ev JStatus.running wid none none none
  if !env.download_ok then [running, fail "Failed to download images"]
  else if !env.validate_ok then [running, fail "Image validation failed"]
  else if !env.process_data_ok then [running, fail "Dataset processing failed"]
  else if !env.train_ok then [running, fail "Model training failed"]
  else
    let exporting := ev JStatus.exporting wid none none none
    let exported := NerfstudioPipeline.export_models target_formats env
    if exported.isEmpty then [running, exporting, fail "Model export failed"]
    else
      let uploaded := exported.filter env.upload_ok
      if uploaded.isEmpty then
        [running, exporting, fail "Failed to upload any outputs"]
      else
        let s3outs := uploaded.map (fun f =>
          { format := f, storage_key := s3OutputKey jid f,
            size_bytes := env.size_of f : OutputData })
        let gpuM := if env.metadata_exists then env.gpu_minutes else 0
        [running, exporting,
         ev JStatus.completed wid none (some s3outs) (some gpuM)]

end JobProcessor

/-- Modelled from the spec (§4.2, §8): the legal transition relation of the
job state machine `queued → running → (exporting →)? (completed|failed)` and
`queued|running → canceled`. The repository's status relay has no transition
check of its own, so this definition follows the spec's words and is compared
against what `process_single_update` actually applies. -/
def specLegalTransition : JStatus → JStatus → Bool
  | JStatus.queued, JStatus.running => true
  | JStatus.queued, JStatus.canceled => true
  | JStatus.running, JStatus.exporting => true
  | JStatus.running, JStatus.completed => true
  | JStatus.running, JStatus.failed => true
  | JStatus.running, JStatus.canceled => true
  | JStatus.exporting, JStatus.completed => true
  | JStatus.exporting, JStatus.failed => true
  | _, _ => false

/-! ## Concrete scenarios used by the theorems below -/

/-- C1 scenario job: a queued API job (org 7, quality fast, glb only). -/
def c1Job : Job :=
  { id := 1, status := JStatus.queued, quality := "fast",
    target_formats := ["glb"], org_id := some 7,
    estimate_credits := some 1, cost_credits := none,
    started_at := none, completed_at := none,
    error_message := none, webhook_url := none }

/-- C1 scenario event: a `completed` status event with one output and
5 gpu minutes, delivered (at least) twice. -/
def c1Event : StatusUpdate :=
  { job_id := 1, status := JStatus.completed, worker_id := some "w1",
    error_message := none,
    outputs := some [{ format := "glb", storage_key := "k1", size_bytes := 100 }],
    gpu_minutes := some 5 }

/-- C1: store after the first delivery of the completed event. -/
def c1Db1 : DB :=
  StatusProcessor.process_single_update
    { jobs := [c1Job], outputs := [], usage_events := [], ledger := [] } c1Event 10

/-- C1: store after the duplicate delivery of the same completed event. -/
def c1Db2 : DB := StatusProcessor.process_single_update c1Db1 c1Event 20

/-- C1: the status relay has no idempotency guard: re-delivering the same
`completed` event to a job already in terminal state `completed` debits the
organization a second time, duplicates the `JobOutput` row and the
`UsageEvent`, and re-writes `cost_credits` — the claimed exactly-once side
effects do not hold on the code. -/
theorem relay_duplicate_completed_event_double_bills :
    (findJob c1Db1 1).map (fun j => j.status) = some JStatus.completed ∧
    (c1Db1.ledger.filter
      (fun e => e.reason == "job_charge" && e.job_id == some 1)).length = 1 ∧
    c1Db1.outputs.length = 1 ∧
    (c1Db2.ledger.filter
      (fun e => e.reason == "job_charge" && e.job_id == some 1)).length = 2 ∧
    c1Db2.outputs.length = 2 ∧
    c1Db2.usage_events.length = 2 ∧
    (findJob c1Db2 1).map (fun j => j.cost_credits) = some (some 1) := by
  decide

/-- C2 scenario job: a running API job (org 7) with a whole-number estimate. -/
def c2Job : Job :=
  { id := 2, status := JStatus.running, quality := "fast",
    target_formats := ["glb"], org_id := some 7,
    estimate_credits := some 3, cost_credits := none,
    started_at := some 1, completed_at := none,
    error_message := none, webhook_url := none }

/-- C2 scenario event: a `failed` status event, delivered (at least) twice. -/
def c2Event : StatusUpdate :=
  { job_id := 2, status := JStatus.failed, worker_id := some "w1",
    error_message := some "Job processing failed: Model training failed",
    outputs := none, gpu_minutes := none }

/-- C2: store after two deliveries of the same failed event. -/
def c2Db2 : DB :=
  StatusProcessor.process_single_update
    (StatusProcessor.process_single_update
      { jobs := [c2Job], outputs := [], usage_events := [], ledger := [] }
      c2Event 10)
    c2Event 20

/-- C2: the refund on transition into `failed` is not guarded by any
refund-reason lookup or refunded flag: a duplicate `failed` event appends a
second `refund` ledger entry (each of delta `+3`, the estimate), so the
organization is refunded twice for the same job. -/
theorem relay_duplicate_failed_event_double_refunds :
    (c2Db2.ledger.filter
      (fun e => e.reason == "refund" && e.job_id == some 2)).length = 2 ∧
    c2Db2.ledger.map (fun e => e.delta) = [3, 3] := by
  decide

/-- C3 scenario job: a job already in terminal state `completed`. -/
def c3Job : Job :=
  { id := 3, status := JStatus.completed, quality := "fast",
    target_formats := ["glb"], org_id := some 7,
    estimate_credits := some 1, cost_credits := some 1,
    started_at := some 1, completed_at := some 5,
    error_message := none, webhook_url := none }

/-- C3 scenario event: a stale `running` event arriving after completion. -/
def c3Event : StatusUpdate :=
  { job_id := 3, status := JStatus.running, worker_id := some "w1",
    error_message := none, outputs := none, gpu_minutes := none }

/-- C3: the relay validates nothing before `job.status = status`: the
illegal transition `completed → running` (illegal per the spec state machine
`specLegalTransition`) is applied to the job rather than discarded, so
observed status sequences are not restricted to the legal chains. -/
theorem relay_applies_illegal_transition :
    specLegalTransition JStatus.completed JStatus.running = false ∧
    (findJob
      (StatusProcessor.process_single_update
        { jobs := [c3Job], outputs := [], usage_events := [], ledger := [] }
        c3Event 9)
      3).map (fun j => j.status) = some JStatus.running := by
  decide

/-- C9 scenario environment: stages 1-4 all succeed (training ran for 5 gpu
minutes, recorded in the metadata file), but the export stage finds no
trained-model config, so the job ends `failed`. -/
def c9Env : PipelineEnv :=
  { download_ok := true, validate_ok := true, process_data_ok := true,
    train_ok := true, gpu_minutes := 5, metadata_exists := true,
    config_found := false, glb_export_ok := true, usdz_convert_ok := true,
    feature_usdz := true, upload_ok := fun _ => true, size_of := fun _ => 100 }

/-- C9 scenario job record for the failing job. -/
def c9Job : Job :=
  { id := 4, status := JStatus.running, quality := "fast",
    target_formats := ["glb"], org_id := some 7,
    estimate_credits := some 2, cost_credits := none,
    started_at := some 1, completed_at := none,
    error_message := none, webhook_url := none }

/-- C9: the worker's failure path reports `failed` without any
`gpu_minutes` field — only the `completed` path attaches the training
wall-clock time — so for a job whose training stage ran but which then
failed at export, the relay writes no `UsageEvent` at all: gpu time is not
recorded regardless of outcome. -/
theorem worker_failed_job_gpu_time_not_recorded :
    c9Env.train_ok = true ∧ c9Env.gpu_minutes = 5 ∧
    (JobProcessor.process_job 4 "w1" ["glb"] c9Env).getLast? =
      some { job_id := 4, status := JStatus.failed, worker_id := some "w1",
             error_message := some "Job processing failed: Model export failed",
             outputs := none, gpu_minutes := none } ∧
    ((JobProcessor.process_job 4 "w1" ["glb"] c9Env).foldl
      (fun db ev => StatusProcessor.process_single_update db ev 9)
      { jobs := [c9Job], outputs := [], usage_events := [], ledger := [] }
      ).usage_events = [] := by
  decide

/-- C10: a `completed` status event with no `gpu_minutes` key sets the job's
status to `completed` and inserts its output rows, but performs no billing:
no `UsageEvent` is written, `cost_credits` is left untouched (so it remains
null when it was null), and no ledger entry is appended. -/
theorem completed_event_without_gpu_minutes_no_billing
    (db : DB) (u : StatusUpdate) (now : Nat) (job : Job)
    (hfind : findJob db u.job_id = some job)
    (hst : u.status = JStatus.completed)
    (hgpu : u.gpu_minutes = none) :
    (StatusProcessor.apply_update job u now).job.status = JStatus.completed ∧
    (StatusProcessor.apply_update job u now).job.cost_credits = job.cost_credits ∧
    (StatusProcessor.apply_update job u now).new_usage = [] ∧
    (StatusProcessor.apply_update job u now).new_ledger = [] ∧
    (StatusProcessor.apply_update job u now).new_outputs =
      (u.outputs.getD []).map (fun o =>
        { job_id := job.id, format := o.format,
          storage_key := o.storage_key, size_bytes := o.size_bytes }) ∧
    (StatusProcessor.process_single_update db u now).usage_events = db.usage_events ∧
    (StatusProcessor.process_single_update db u now).ledger = db.ledger ∧
    (StatusProcessor.process_single_update db u now).outputs =
      db.outputs ++ (StatusProcessor.apply_update job u now).new_outputs := by
  obtain ⟨jid, st, wid, err, outs, gpu⟩ := u
  simp only at hst hgpu hfind
  subst hst
  subst hgpu
  unfold StatusProcessor.process_single_update
  rw [hfind]
  cases err <;> cases outs <;>
    simp [StatusProcessor.apply_update]

/-- C10 witness job: an exporting job with `cost_credits` still null. -/
def c10Job : Job :=
  { id := 6, status := JStatus.exporting, quality := "fast",
    target_formats := ["glb"], org_id := some 7,
    estimate_credits := some 1, cost_credits := none,
    started_at := some 1, completed_at := none,
    error_message := none, webhook_url := none }

/-- C10 witness store holding only the job above. -/
def c10Db : DB :=
  { jobs := [c10Job], outputs := [], usage_events := [], ledger := [] }

/-- C10 witness event: `completed` with one output and no `gpu_minutes` key. -/
def c10Event : StatusUpdate :=
  { job_id := 6, status := JStatus.completed, worker_id := some "w1",
    error_message := none,
    outputs := some [{ format := "glb", storage_key := "k6", size_bytes := 50 }],
    gpu_minutes := none }

/-- C10 witness: the completed-without-gpu event leaves usage events, ledger
and `cost_credits` untouched. -/
theorem completed_event_without_gpu_minutes_no_billing_witness :
    findJob c10Db c10Event.job_id = some c10Job ∧
    (StatusProcessor.process_single_update c10Db c10Event 9).usage_events =
      c10Db.usage_events ∧
    (StatusProcessor.process_single_update c10Db c10Event 9).ledger =
      c10Db.ledger ∧
    (StatusProcessor.apply_update c10Job c10Event 9).job.cost_credits =
      c10Job.cost_credits :=
  ⟨by decide,
   (completed_event_without_gpu_minutes_no_billing c10Db c10Event 9 c10Job
     (by decide) rfl rfl).2.2.2.2.2.1,
   (completed_event_without_gpu_minutes_no_billing c10Db c10Event 9 c10Job
     (by decide) rfl rfl).2.2.2.2.2.2.1,
   (completed_event_without_gpu_minutes_no_billing c10Db c10Event 9 c10Job
     (by decide) rfl rfl).2.1⟩

/-- C8: `debit_credits` refuses — returning failure and appending nothing —
exactly when the organization's balance (the sum of its ledger entries'
deltas, `get_balance`) is strictly below the amount, and otherwise appends a
single negative-delta entry; `add_credits` (credit/refund) succeeds on every
ledger, zero or negative balance included, appending a positive-delta entry. -/
theorem ledger_debit_refund_semantics (ledger : List CreditsLedger) (org : Nat)
    (amount : Rat) (reason : String) (jid : Option Nat) (tx : Option String)
    (hpos : 0 < amount) :
    ((CreditsManager.debit_credits ledger org amount reason jid).1 = false ↔
      CreditsManager.get_balance ledger org < amount) ∧
    ((CreditsManager.debit_credits ledger org amount reason jid).1 = false →
      (CreditsManager.debit_credits ledger org amount reason jid).2 = ledger) ∧
    ((CreditsManager.debit_credits ledger org amount reason jid).1 = true →
      (CreditsManager.debit_credits ledger org amount reason jid).2 =
        ledger ++ [{ org_id := org, delta := -amount, reason := reason,
                     job_id := jid, stripe_tx_id := none }] ∧
      (-amount : Rat) < 0) ∧
    (CreditsManager.add_credits ledger org amount reason tx).1 = true ∧
    (CreditsManager.add_credits ledger org amount reason tx).2 =
      ledger ++ [{ org_id := org, delta := amount, reason := reason,
                   job_id := none, stripe_tx_id := tx }] ∧
    (0 : Rat) < amount := by
  unfold CreditsManager.debit_credits CreditsManager.add_credits
  by_cases h : CreditsManager.get_balance ledger org < amount
  · simp [h, hpos]
  · simp [h, hpos, neg_lt_zero]

/-- C8 ledger for the witness: a single past debit leaves org 7 with the
negative balance `-5`. -/
def c8Ledger : List CreditsLedger :=
  [{ org_id := 7, delta := -5, reason := "job_charge",
     job_id := none, stripe_tx_id := none }]

/-- C8 witness: with balance `-5 < 3` the debit of 3 credits is refused and
the ledger is unchanged, while a credit of 3 still succeeds from the
negative balance. -/
theorem ledger_debit_refund_semantics_witness :
    (CreditsManager.debit_credits c8Ledger 7 3 "job_charge" (some 1)).1 = false ∧
    (CreditsManager.debit_credits c8Ledger 7 3 "job_charge" (some 1)).2 = c8Ledger ∧
    (CreditsManager.add_credits c8Ledger 7 3 "refund" none).1 = true := by
  have hb : CreditsManager.get_balance c8Ledger 7 < 3 := by
    simp [CreditsManager.get_balance, c8Ledger]
    decide
  obtain ⟨hiff, hkeep, _, hadd, _, _⟩ :=
    ledger_debit_refund_semantics c8Ledger 7 3 "job_charge" (some 1) none (by decide)
  exact ⟨hiff.mpr hb, hkeep (hiff.mpr hb), hadd⟩

/-- C5: webhook retry policy. While the persisted attempt counter is below
3, every failed delivery schedules a retry after exactly
`min 300 (60 * 2 ^ (attempts - 1))` seconds; and for a fresh event three
consecutive failed deliveries schedule retries after 60s and then 120s, and
the third failure schedules nothing: the event is abandoned with
`delivered_at` still null and `attempts = 3`. -/
theorem webhook_retry_schedule (r1 r2 r3 : HttpResult) (t1 t2 t3 : Nat)
    (h1 : WebhookDeliveryProcessor.webhookSuccess r1 = false)
    (h2 : WebhookDeliveryProcessor.webhookSuccess r2 = false)
    (h3 : WebhookDeliveryProcessor.webhookSuccess r3 = false) :
    (∀ (w : WebhookEv) (r : HttpResult) (t : Nat),
      WebhookDeliveryProcessor.webhookSuccess r = false →
      (WebhookDeliveryProcessor.deliver_webhook w r t).event.attempts < 3 →
      (WebhookDeliveryProcessor.deliver_webhook w r t).retry_delay =
        some (min 300 (60 * 2 ^
          ((WebhookDeliveryProcessor.deliver_webhook w r t).event.attempts - 1)))) ∧
    (WebhookDeliveryProcessor.deliver_webhook ⟨0, none⟩ r1 t1).retry_delay = some 60 ∧
    (WebhookDeliveryProcessor.deliver_webhook
      (WebhookDeliveryProcessor.deliver_webhook ⟨0, none⟩ r1 t1).event r2 t2).retry_delay
        = some 120 ∧
    (WebhookDeliveryProcessor.deliver_webhook
      (WebhookDeliveryProcessor.deliver_webhook
        (WebhookDeliveryProcessor.deliver_webhook ⟨0, none⟩ r1 t1).event r2 t2).event
      r3 t3).retry_delay = none ∧
    (WebhookDeliveryProcessor.deliver_webhook
      (WebhookDeliveryProcessor.deliver_webhook
        (WebhookDeliveryProcessor.deliver_webhook ⟨0, none⟩ r1 t1).event r2 t2).event
      r3 t3).event.delivered_at = none ∧
    (WebhookDeliveryProcessor.deliver_webhook
      (WebhookDeliveryProcessor.deliver_webhook
        (WebhookDeliveryProcessor.deliver_webhook ⟨0, none⟩ r1 t1).event r2 t2).event
      r3 t3).event.attempts = 3 := by
  refine ⟨?_, ?_⟩
  · intro w r t hr hlt
    simp [WebhookDeliveryProcessor.deliver_webhook, hr,
          WebhookDeliveryProcessor.handle_failed_delivery] at hlt ⊢
    omega
  · simp [WebhookDeliveryProcessor.deliver_webhook, h1, h2, h3,
          WebhookDeliveryProcessor.handle_failed_delivery]

/-- C5 witness: three transport errors against a fresh event. -/
theorem webhook_retry_schedule_witness :
    (WebhookDeliveryProcessor.deliver_webhook ⟨0, none⟩
      HttpResult.transportError 4).retry_delay = some 60 ∧
    (WebhookDeliveryProcessor.deliver_webhook
      (WebhookDeliveryProcessor.deliver_webhook
        (WebhookDeliveryProcessor.deliver_webhook ⟨0, none⟩
          HttpResult.transportError 4).event HttpResult.transportError 5).event
      HttpResult.transportError 6).event.attempts = 3 :=
  have h := webhook_retry_schedule HttpResult.transportError
    HttpResult.transportError HttpResult.transportError 4 5 6
    (by decide) (by decide) (by decide)
  ⟨h.2.1, h.2.2.2.2.2⟩

/-- C6 counterexample: HTTP 204 is a 2xx status code, yet the dispatcher
does not treat the delivery as successful — `delivered_at` stays null and a
retry is scheduled — because the code tests `status_code == 200` only. -/
theorem webhook_2xx_response_not_marked_delivered :
    200 ≤ 204 ∧ 204 < 300 ∧
    WebhookDeliveryProcessor.webhookSuccess (HttpResult.response 204) = false ∧
    (WebhookDeliveryProcessor.deliver_webhook ⟨0, none⟩
      (HttpResult.response 204) 5).event.delivered_at = none ∧
    (WebhookDeliveryProcessor.deliver_webhook ⟨0, none⟩
      (HttpResult.response 204) 5).retry_delay = some 60 := by
  decide

/-- C6 (amended): the dispatcher treats a delivery as successful — marking
`delivered_at` and scheduling nothing — exactly when the HTTP POST returns
status code 200; every other response code and every transport error is
treated as a failed attempt and handed to the retry handler. -/
theorem webhook_success_iff_http_200 (w : WebhookEv) (r : HttpResult) (t : Nat) :
    (WebhookDeliveryProcessor.webhookSuccess r = true ↔ r = HttpResult.response 200) ∧
    (r = HttpResult.response 200 →
      (WebhookDeliveryProcessor.deliver_webhook w r t).event.delivered_at = some t ∧
      (WebhookDeliveryProcessor.deliver_webhook w r t).retry_delay = none) ∧
    (r ≠ HttpResult.response 200 →
      (WebhookDeliveryProcessor.deliver_webhook w r t).event.delivered_at = w.delivered_at ∧
      (WebhookDeliveryProcessor.deliver_webhook w r t).retry_delay =
        WebhookDeliveryProcessor.handle_failed_delivery
          { w with attempts := w.attempts + 1 }) := by
  refine ⟨?_, ?_, ?_⟩
  · cases r with
    | response code =>
      simp [WebhookDeliveryProcessor.webhookSuccess]
    | transportError =>
      simp [WebhookDeliveryProcessor.webhookSuccess]
  · intro hr
    subst hr
    simp [WebhookDeliveryProcessor.deliver_webhook,
          WebhookDeliveryProcessor.webhookSuccess]
  · intro hr
    have hs : WebhookDeliveryProcessor.webhookSuccess r = false := by
      cases r with
      | response code =>
        simp [WebhookDeliveryProcessor.webhookSuccess]
        intro hc
        exact hr (by rw [hc])
      | transportError => rfl
    simp [WebhookDeliveryProcessor.deliver_webhook, hs]

/-- C6 witness: a 200 response marks the event delivered; a 500 response
leaves it undelivered. -/
theorem webhook_success_iff_http_200_witness :
    (WebhookDeliveryProcessor.deliver_webhook ⟨0, none⟩
      (HttpResult.response 200) 9).event.delivered_at = some 9 ∧
    (WebhookDeliveryProcessor.deliver_webhook ⟨0, none⟩
      (HttpResult.response 500) 9).event.delivered_at = none :=
  ⟨((webhook_success_iff_http_200 ⟨0, none⟩ (HttpResult.response 200) 9).2.1 rfl).1,
   ((webhook_success_iff_http_200 ⟨0, none⟩ (HttpResult.response 500) 9).2.2
      (by decide)).1⟩


namespace JobQueue

/-- `zrevTop` is `none` exactly on the empty sorted set. -/
theorem zrevTop_eq_none : ∀ {l : List (String × Int)},
    zrevTop l = none ↔ l = [] := by
  intro l
  cases l with
  | nil => simp [zrevTop]
  | cons a as =>
    simp only [zrevTop]
    cases zrevTop as <;> simp

/-- `zrevTop` returns an element of the list. -/
theorem zrevTop_mem : ∀ {l : List (String × Int)} {e : String × Int},
    zrevTop l = some e → e ∈ l := by
  intro l
  induction l with
  | nil => intro e h; simp [zrevTop] at h
  | cons a as ih =>
    intro e h
    rw [zrevTop] at h
    cases hrec : zrevTop as with
    | none =>
      rw [hrec] at h
      injection h with h
      rw [← h]
      exact List.mem_cons_self a as
    | some b =>
      rw [hrec] at h
      injection h with h
      split at h
      · rw [← h]; exact List.mem_cons_self a as
      · rw [← h]; exact List.mem_cons_of_mem a (ih hrec)

/-- `zrevTop` returns an element whose score is maximal in the sorted set. -/
theorem zrevTop_score_max : ∀ {l : List (String × Int)} {e : String × Int},
    zrevTop l = some e → ∀ x ∈ l, x.2 ≤ e.2 := by
  intro l
  induction l with
  | nil => intro e h; simp [zrevTop] at h
  | cons a as ih =>
    intro e h x hx
    rw [zrevTop] at h
    cases hrec : zrevTop as with
    | none =>
      rw [hrec] at h
      injection h with h
      have hnil : as = [] := zrevTop_eq_none.mp hrec
      subst hnil
      simp at hx
      rw [hx, ← h]
    | some b =>
      rw [hrec] at h
      injection h with h
      split at h
      · rename_i hcond
        simp at hcond
        rcases List.mem_cons.mp hx with hxa | hxas
        · rw [hxa, ← h]
        · have hxb := ih hrec x hxas
          have hba : b.2 ≤ a.2 := by
            rcases hcond with hlt | ⟨heq, _⟩
            · omega
            · omega
          rw [← h]
          omega
      · rename_i hcond
        simp at hcond
        rcases List.mem_cons.mp hx with hxa | hxas
        · have hab : a.2 ≤ b.2 := by omega
          rw [hxa, ← h]
          omega
        · rw [← h]
          exact ih hrec x hxas

end JobQueue

/-- C7: `dequeue_job` is strict-priority. When the priority sorted set is
non-empty it returns its top entry — an entry of maximal score — without
touching the FIFO list; only when the priority set is empty does it fall
back to the blocking FIFO pop with the caller's timeout, and it returns
`none` exactly when that pop finds the FIFO list still empty at expiry. -/
theorem dequeue_strict_priority (st : JobQueue.QueueState) (timeout : Nat) :
    (st.pq ≠ [] →
      ∃ e : String × Int, JobQueue.zrevTop st.pq = some e ∧ e ∈ st.pq ∧
        (∀ x ∈ st.pq, x.2 ≤ e.2) ∧
        (JobQueue.dequeue_job st timeout).1 = some e.1 ∧
        (JobQueue.dequeue_job st timeout).2.fifo = st.fifo) ∧
    (st.pq = [] →
      (JobQueue.dequeue_job st timeout).1 = st.fifo.getLast? ∧
      (JobQueue.dequeue_job st timeout).2.fifo = st.fifo.dropLast ∧
      (st.fifo = [] → (JobQueue.dequeue_job st timeout).1 = none)) := by
  constructor
  · intro hne
    cases htop : JobQueue.zrevTop st.pq with
    | none => exact absurd (JobQueue.zrevTop_eq_none.mp htop) hne
    | some e =>
      refine ⟨e, rfl, JobQueue.zrevTop_mem htop, JobQueue.zrevTop_score_max htop, ?_, ?_⟩ <;>
        simp [JobQueue.dequeue_job, htop]
  · intro hpq
    have htop : JobQueue.zrevTop st.pq = none := JobQueue.zrevTop_eq_none.mpr hpq
    cases hlast : st.fifo.getLast? with
    | none =>
      have : st.fifo = [] := by
        cases hf : st.fifo with
        | nil => rfl
        | cons a as => rw [hf] at hlast; simp [List.getLast?_eq_getLast] at hlast
      simp [JobQueue.dequeue_job, htop, hlast, this]
    | some p =>
      simp [JobQueue.dequeue_job, htop, hlast]
      intro hf
      rw [hf] at hlast
      simp at hlast

/-- C7 witness: with a priority-5 item and a FIFO item both pending, dequeue
returns the priority item and leaves the FIFO item in place. -/
theorem dequeue_strict_priority_witness :
    (JobQueue.dequeue_job ⟨[("prio_item", 5)], ["fifo_item"]⟩ 30).1 =
      some "prio_item" ∧
    (JobQueue.dequeue_job ⟨[("prio_item", 5)], ["fifo_item"]⟩ 30).2.fifo =
      ["fifo_item"] := by
  have h := (dequeue_strict_priority ⟨[("prio_item", 5)], ["fifo_item"]⟩ 30).1
    (by decide)
  obtain ⟨e, htop, _, _, hfst, hfifo⟩ := h
  have he : e = ("prio_item", 5) := by
    have : JobQueue.zrevTop [("prio_item", (5 : Int))] = some ("prio_item", 5) := rfl
    rw [this] at htop
    exact (Option.some_inj.mp htop).symm
  rw [he] at hfst
  exact ⟨hfst, hfifo⟩

/-- C4: once the pipeline reaches the export stage (stages 1-4 all
succeeded), the worker's terminal event is `completed` exactly when at least
one requested format was successfully exported and uploaded (the filter of
the export results by upload success is non-empty), it is `failed` exactly
when zero formats succeeded, and on completion the reported outputs are
exactly the successfully exported-and-uploaded formats. -/
theorem worker_completion_policy (jid : Nat) (wid : String)
    (formats : List String) (env : PipelineEnv)
    (hd : env.download_ok = true) (hv : env.validate_ok = true)
    (hp : env.process_data_ok = true) (ht : env.train_ok = true) :
    ∃ ev : StatusUpdate,
      (JobProcessor.process_job jid wid formats env).getLast? = some ev ∧
      (ev.status = JStatus.completed ↔
        (NerfstudioPipeline.export_models formats env).filter env.upload_ok ≠ []) ∧
      (ev.status = JStatus.failed ↔
        (NerfstudioPipeline.export_models formats env).filter env.upload_ok = []) ∧
      ((NerfstudioPipeline.export_models formats env).filter env.upload_ok ≠ [] →
        ev.outputs = some
          (((NerfstudioPipeline.export_models formats env).filter env.upload_ok).map
            (fun f => { format := f, storage_key := JobProcessor.s3OutputKey jid f,
                        size_bytes := env.size_of f }))) := by
  by_cases hE : (NerfstudioPipeline.export_models formats env).isEmpty = true
  · have hnil : NerfstudioPipeline.export_models formats env = [] :=
      List.isEmpty_iff.mp hE
    have hlast : (JobProcessor.process_job jid wid formats env).getLast? =
        some (JobProcessor.update_job_status jid JStatus.failed wid
          (some ("Job processing failed: " ++ "Model export failed")) none none) := by
      simp [JobProcessor.process_job, hd, hv, hp, ht, hE]
    refine ⟨_, hlast, ?_, ?_, ?_⟩
    · simp [JobProcessor.update_job_status, hnil]
    · simp [JobProcessor.update_job_status, hnil]
    · simp [hnil]
  · by_cases hU : ((NerfstudioPipeline.export_models formats env).filter
        env.upload_ok).isEmpty = true
    · have hnil : (NerfstudioPipeline.export_models formats env).filter
          env.upload_ok = [] := List.isEmpty_iff.mp hU
      have hlast : (JobProcessor.process_job jid wid formats env).getLast? =
          some (JobProcessor.update_job_status jid JStatus.failed wid
            (some ("Job processing failed: " ++ "Failed to upload any outputs"))
            none none) := by
        simp [JobProcessor.process_job, hd, hv, hp, ht, hE, hU]
      refine ⟨_, hlast, ?_, ?_, ?_⟩
      · simp [JobProcessor.update_job_status, hnil]
      · simp [JobProcessor.update_job_status, hnil]
      · simp [hnil]
    · have hne : (NerfstudioPipeline.export_models formats env).filter
          env.upload_ok ≠ [] := by
        intro hc
        rw [hc] at hU
        exact hU rfl
      have hlast : (JobProcessor.process_job jid wid formats env).getLast? =
          some (JobProcessor.update_job_status jid JStatus.completed wid none
            (some (((NerfstudioPipeline.export_models formats env).filter
                env.upload_ok).map
              (fun f => { format := f, storage_key := JobProcessor.s3OutputKey jid f,
                          size_bytes := env.size_of f })))
            (some (if env.metadata_exists then env.gpu_minutes else 0))) := by
        simp [JobProcessor.process_job, hd, hv, hp, ht, hE, hU]
      refine ⟨_, hlast, ?_, ?_, ?_⟩
      · simp [JobProcessor.update_job_status, hne]
      · simp [JobProcessor.update_job_status, hne]
      · intro _
        have houts : ¬(((NerfstudioPipeline.export_models formats env).filter
            env.upload_ok).map
              (fun f => ({ format := f, storage_key := JobProcessor.s3OutputKey jid f,
                           size_bytes := env.size_of f } : OutputData))).isEmpty = true := by
          simp [List.isEmpty_iff, hne]
        simp [JobProcessor.update_job_status, listTruthy, houts]

/-- C4 witness environment: stages 1-4 succeed, GLB export succeeds, the
USDZ conversion fails, every upload succeeds. -/
def c4Env : PipelineEnv :=
  { download_ok := true, validate_ok := true, process_data_ok := true,
    train_ok := true, gpu_minutes := 5, metadata_exists := true,
    config_found := true, glb_export_ok := true, usdz_convert_ok := false,
    feature_usdz := true, upload_ok := fun _ => true, size_of := fun _ => 100 }

/-- C4 witness: a job requesting `["glb", "usdz"]` where only the GLB export
succeeds ends `completed` with a single output row, for `glb` only. -/
theorem worker_completion_policy_witness :
    ∃ ev : StatusUpdate,
      (JobProcessor.process_job 5 "w1" ["glb", "usdz"] c4Env).getLast? = some ev ∧
      ev.status = JStatus.completed ∧
      ev.outputs = some [{ format := "glb",
                           storage_key := JobProcessor.s3OutputKey 5 "glb",
                           size_bytes := 100 }] := by
  obtain ⟨ev, hlast, hc, _, houts⟩ :=
    worker_completion_policy 5 "w1" ["glb", "usdz"] c4Env rfl rfl rfl rfl
  have hfil : (NerfstudioPipeline.export_models ["glb", "usdz"] c4Env).filter
      c4Env.upload_ok = ["glb"] := by decide
  refine ⟨ev, hlast, hc.mpr (by rw [hfil]; simp), ?_⟩
  have hev := houts (by rw [hfil]; simp)
  rw [hfil] at hev
  simpa [c4Env] using hev
